import Mathlib

/-!
A shallow embedding of `src/main.py` (class `Subcribe`): an event-driven
bridge that receives Emotiv Cortex telemetry callbacks, tracks a boolean
connectivity flag from device-quality events, computes normalized spectral
band proportions from band-power vectors, and sends a derived 7-element
vector over OSC.

Numeric data is modelled with `ℚ`. A Python runtime exception escaping a
handler (IndexError on a too-short vector, ZeroDivisionError on a zero
power sum, AttributeError on an unset instance attribute) is modelled as
`none`; a normal return carrying an outbound `send_message` is `some`.
-/

namespace EmotivArunav

/-- The mutable instance attributes of a `Subcribe` object.  `flag` is the
connectivity boolean; `pow_labels`, `met_labels` and `streams` are `none`
while the corresponding Python attribute has not been assigned yet
(reading an unassigned attribute raises AttributeError). -/
structure SubcribeState where
  flag : Bool
  pow_labels : Option (List String)
  met_labels : Option (List String)
  streams : Option (List String)
deriving DecidableEq

/-- `Subcribe.__init__` (line 48): `self.flag = False`; no label or stream
attribute is assigned at construction. -/
def initState : SubcribeState :=
  { flag := false, pow_labels := none, met_labels := none, streams := none }

/-- The calls the handlers make on the external Cortex client handle. -/
inductive ExternalCall where
  | setWantedHeadset (headsetId : String)
  | openSession
  | subRequest (streams : List String)
deriving DecidableEq

/-- `Subcribe.start(streams, headsetId)` (lines 50..78): records
`self.streams = streams`, informs the client of a wanted headset when a
non-empty id is given, then opens the session. -/
def start (streams : List String) (headsetId : String) (st : SubcribeState) :
    SubcribeState × List ExternalCall :=
  ({ st with streams := some streams },
    (if headsetId ≠ "" then [ExternalCall.setWantedHeadset headsetId] else [])
      ++ [ExternalCall.openSession])

/-- `Subcribe.on_create_session_done` (lines 239..243): calls
`self.sub(self.streams)`, i.e. issues `c.sub_request(self.streams)`.
If `start` has never recorded `self.streams`, reading it raises
AttributeError (`none`). -/
def on_create_session_done (st : SubcribeState) : Option (List ExternalCall) :=
  match st.streams with
  | some s => some [ExternalCall.subRequest s]
  | none => none

/-- `Subcribe.on_new_data_labels` (lines 135..142): stores the label list
in `self.pow_labels` when the stream name is `'pow'`, in `self.met_labels`
when it is `'met'`, and otherwise only prints it. -/
def on_new_data_labels (streamName : String) (labels : List String)
    (st : SubcribeState) : SubcribeState :=
  if streamName = "pow" then { st with pow_labels := some labels }
  else if streamName = "met" then { st with met_labels := some labels }
  else st

/-- Reading back the stored labels of a stream kind from the instance:
only the `'pow'` and `'met'` attributes exist; any other kind has no
backing attribute (`none`). -/
def getLabels (streamName : String) (st : SubcribeState) :
    Option (List String) :=
  if streamName = "pow" then st.pow_labels
  else if streamName = "met" then st.met_labels
  else none

/-- `Subcribe.on_new_eeg_data` (lines 144..156): the body only prints the
received data; no instance attribute is touched. -/
def on_new_eeg_data (st : SubcribeState) : SubcribeState := st

/-- `Subcribe.on_new_mot_data` (lines 158..169): print only. -/
def on_new_mot_data (st : SubcribeState) : SubcribeState := st

/-- `Subcribe.on_new_met_data` (lines 189..201): print only (the OSC send
on line 201 is commented out in the source). -/
def on_new_met_data (st : SubcribeState) : SubcribeState := st

/-- `Subcribe.on_inform_error` (lines 245..247): print only. -/
def on_inform_error (st : SubcribeState) : SubcribeState := st

/-- Lines 184..187 of `Subcribe.on_new_dev_data`: the if/elif update of
`self.flag` from the extracted quality value. -/
def updateFromDeviceSignal (connection_status : ℚ) (flag : Bool) : Bool :=
  if connection_status < 50 ∧ flag = true then false
  else if connection_status ≥ 50 ∧ flag = false then true
  else flag

/-- `Subcribe.on_new_dev_data` (lines 171..187): reads
`data['dev'][2]` (IndexError → `none` when the vector is shorter than 3)
and updates `self.flag` by the threshold rule. -/
def on_new_dev_data (dev : List ℚ) (st : SubcribeState) :
    Option SubcribeState :=
  match dev.get? 2 with
  | none => none
  | some connection_status =>
      some { st with flag := updateFromDeviceSignal connection_status st.flag }

/-- `Subcribe.on_new_pow_data` (lines 203..235), as a function of the power
vector and the current connectivity flag.  The source indexes
`data['pow'][0]` .. `data['pow'][9]` (IndexError → `none` when fewer than
10 elements) and divides each two-site band total by `sum(data['pow'])`
(ZeroDivisionError → `none` when the sum is zero; the divisions happen
before the flag branch).  On success it sends one message on the channel
`'/pow_proportion'`: the computed 7-vector when the flag is set, seven
zeros otherwise. -/
def on_new_pow_data (pow : List ℚ) (flag : Bool) :
    Option (String × List ℚ) :=
  let sum_pow := pow.sum
  match pow with
  | p0 :: p1 :: p2 :: p3 :: p4 :: p5 :: p6 :: p7 :: p8 :: p9 :: _ =>
      let sum_theta_pow := p0 + p5
      let sum_alpha_pow := p1 + p6
      let sum_beta_low_pow := p2 + p7
      let sum_beta_high_pow := p3 + p8
      let sum_gamma_pow := p4 + p9
      if sum_pow = 0 then none
      else
        let theta_proportion := sum_theta_pow / sum_pow
        let alpha_proportion := sum_alpha_pow / sum_pow
        let beta_low_proportion := sum_beta_low_pow / sum_pow
        let beta_high_proportion := sum_beta_high_pow / sum_pow
        let gamma_proportion := sum_gamma_pow / sum_pow
        let meditation := theta_proportion + alpha_proportion
        let attention :=
          beta_low_proportion + beta_high_proportion + gamma_proportion
        if flag then
          some ("/pow_proportion",
            [theta_proportion, alpha_proportion, beta_low_proportion,
             beta_high_proportion, gamma_proportion, meditation, attention])
        else
          some ("/pow_proportion", [0, 0, 0, 0, 0, 0, 0])
  | _ => none

/-- The `on_new_pow_data` handler acting on the whole instance state: it
reads `self.flag` and assigns no attribute. -/
def on_new_pow_data_st (pow : List ℚ) (st : SubcribeState) :
    SubcribeState × Option (String × List ℚ) :=
  (st, on_new_pow_data pow st.flag)

/-- Running the connectivity gate over a sequence of quality values,
starting from the initial state of the flag. -/
def runGate (qs : List ℚ) : Bool :=
  qs.foldl (fun s q => updateFromDeviceSignal q s) false

/-- The flag value after each successive quality value, starting from the
initial state. -/
def gateTrace (qs : List ℚ) : List Bool :=
  (qs.scanl (fun s q => updateFromDeviceSignal q s) false).tail

/-- The 25-element all-ones band-power vector used by the spec's tests. -/
def ones25 : List ℚ :=
  [1, 1, 1, 1, 1, 1, 1, 1, 1, 1, 1, 1, 1,
   1, 1, 1, 1, 1, 1, 1, 1, 1, 1, 1, 1]

/-- The 25-element all-zero band-power vector: its power sum is zero. -/
def zeros25 : List ℚ :=
  [0, 0, 0, 0, 0, 0, 0, 0, 0, 0, 0, 0, 0,
   0, 0, 0, 0, 0, 0, 0, 0, 0, 0, 0, 0]

/-- A band-power vector of length exactly 10 with nonzero sum. -/
def tenOnes : List ℚ := [1, 1, 1, 1, 1, 1, 1, 1, 1, 1]

/-- The two-site band proportion the source actually computes for band `b`:
`(pow[b] + pow[5 + b]) / sum(pow)` — sites 0 (`AF3`) and 1 (`T7`) of the
fixed 5-sites-by-5-bands layout. -/
def bandProportion (v : List ℚ) (b : ℕ) : ℚ :=
  (v.getD b 0 + v.getD (5 + b) 0) / v.sum

/-- A band-power vector that separates site 1 (index 5, `T7/theta`) from
site 3 (index 15, `T8/theta`): 1 at index 5, 0 elsewhere. -/
def cexVec : List ℚ :=
  [0, 0, 0, 0, 0, 1, 0, 0, 0, 0, 0, 0, 0, 0, 0,
   0, 0, 0, 0, 0, 0, 0, 0, 0, 0]

/-- A length-11 vector agreeing with `ones25` on indices 0..9 and in total
sum. -/
def ones10pad : List ℚ := [1, 1, 1, 1, 1, 1, 1, 1, 1, 1, 15]

lemma exists_cons10 (v : List ℚ) (h : 10 ≤ v.length) :
    ∃ p0 p1 p2 p3 p4 p5 p6 p7 p8 p9 rest,
      v = p0 :: p1 :: p2 :: p3 :: p4 :: p5 :: p6 :: p7 :: p8 :: p9 :: rest := by
  rcases v with _ | ⟨p0, v⟩; · simp at h
  rcases v with _ | ⟨p1, v⟩; · simp at h
  rcases v with _ | ⟨p2, v⟩; · simp at h
  rcases v with _ | ⟨p3, v⟩; · simp at h
  rcases v with _ | ⟨p4, v⟩; · simp at h
  rcases v with _ | ⟨p5, v⟩; · simp at h
  rcases v with _ | ⟨p6, v⟩; · simp at h
  rcases v with _ | ⟨p7, v⟩; · simp at h
  rcases v with _ | ⟨p8, v⟩; · simp at h
  rcases v with _ | ⟨p9, v⟩; · simp at h
  exact ⟨p0, p1, p2, p3, p4, p5, p6, p7, p8, p9, v, rfl⟩

lemma updateFromDeviceSignal_eq (q : ℚ) (s : Bool) :
    updateFromDeviceSignal q s = decide (50 ≤ q) := by
  rcases le_or_lt 50 q with h | h
  · cases s <;> simp [updateFromDeviceSignal, h, h.not_lt]
  · cases s <;> simp [updateFromDeviceSignal, h, h.not_le]

lemma on_new_pow_data_short (v : List ℚ) (h : v.length < 10) (flag : Bool) :
    on_new_pow_data v flag = none := by
  rcases v with _ | ⟨p0, v⟩; · rfl
  rcases v with _ | ⟨p1, v⟩; · rfl
  rcases v with _ | ⟨p2, v⟩; · rfl
  rcases v with _ | ⟨p3, v⟩; · rfl
  rcases v with _ | ⟨p4, v⟩; · rfl
  rcases v with _ | ⟨p5, v⟩; · rfl
  rcases v with _ | ⟨p6, v⟩; · rfl
  rcases v with _ | ⟨p7, v⟩; · rfl
  rcases v with _ | ⟨p8, v⟩; · rfl
  rcases v with _ | ⟨p9, v⟩; · rfl
  simp at h
  omega

lemma on_new_pow_data_true_eq (v : List ℚ) (hlen : 10 ≤ v.length)
    (hsum : v.sum ≠ 0) :
    on_new_pow_data v true =
      some ("/pow_proportion",
        [bandProportion v 0, bandProportion v 1, bandProportion v 2,
         bandProportion v 3, bandProportion v 4,
         bandProportion v 0 + bandProportion v 1,
         bandProportion v 2 + bandProportion v 3 + bandProportion v 4]) := by
  obtain ⟨p0, p1, p2, p3, p4, p5, p6, p7, p8, p9, rest, rfl⟩ :=
    exists_cons10 v hlen
  simp only [List.sum_cons] at hsum
  simp [on_new_pow_data, bandProportion, hsum]

lemma on_new_pow_data_false_eq (v : List ℚ) (hlen : 10 ≤ v.length)
    (hsum : v.sum ≠ 0) :
    on_new_pow_data v false =
      some ("/pow_proportion", [0, 0, 0, 0, 0, 0, 0]) := by
  obtain ⟨p0, p1, p2, p3, p4, p5, p6, p7, p8, p9, rest, rfl⟩ :=
    exists_cons10 v hlen
  simp only [List.sum_cons] at hsum
  simp [on_new_pow_data, hsum]

/-- C4: starting from the initial state, after any device-quality sequence
ending in `q` the flag equals `q ≥ 50`; the quality sequence
`[10, 60, 40, 70]` yields the flag trace `[false, true, false, true]`; and
a quality value on the same side of the threshold as the current flag
leaves the flag unchanged. -/
theorem connectivity_tracks_latest_quality :
    (∀ (qs : List ℚ) (q : ℚ), runGate (qs ++ [q]) = decide (50 ≤ q)) ∧
    gateTrace [10, 60, 40, 70] = [false, true, false, true] ∧
    (∀ (q : ℚ) (s : Bool), (50 ≤ q ↔ s = true) →
      updateFromDeviceSignal q s = s) := by
  refine ⟨?_, ?_, ?_⟩
  · intro qs q
    simp [runGate, List.foldl_append, updateFromDeviceSignal_eq]
  · decide
  · intro q s h
    rw [updateFromDeviceSignal_eq]
    cases s <;> simp_all

/-- Witness for C4 at the concrete input `q = 60`, `s = true`. -/
theorem connectivity_tracks_latest_quality_witness :
    updateFromDeviceSignal 60 true = true :=
  connectivity_tracks_latest_quality.2.2 60 true (by norm_num)

/-- C7: the connectivity flag is `false` at construction and every handler
other than the device-quality one — labels, eeg, motion, performance
metric, band power, error — as well as `start` leaves it unchanged. -/
theorem flag_mutated_only_by_dev_handler :
    initState.flag = false ∧
    (∀ name L st, (on_new_data_labels name L st).flag = st.flag) ∧
    (∀ st, (on_new_eeg_data st).flag = st.flag) ∧
    (∀ st, (on_new_mot_data st).flag = st.flag) ∧
    (∀ st, (on_new_met_data st).flag = st.flag) ∧
    (∀ pow st, ((on_new_pow_data_st pow st).1).flag = st.flag) ∧
    (∀ st, (on_inform_error st).flag = st.flag) ∧
    (∀ streams headsetId st, ((start streams headsetId st).1).flag = st.flag) := by
  refine ⟨rfl, ?_, fun _ => rfl, fun _ => rfl, fun _ => rfl,
    fun _ _ => rfl, fun _ => rfl, fun _ _ _ => rfl⟩
  intro name L st
  unfold on_new_data_labels
  split_ifs <;> rfl

/-- C8: a session-created event arriving after `start streams` issues
exactly one subscribe request, whose argument is the stream list recorded
by that `start` call. -/
theorem session_created_subscribes_recorded_streams :
    ∀ (streams : List String) (headsetId : String) (st : SubcribeState),
      on_create_session_done (start streams headsetId st).1 =
        some [ExternalCall.subRequest streams] :=
  fun _ _ _ => rfl

/-- C10: on any device vector of length at least 3 the handler succeeds and
sets the flag to `dev[2] ≥ 50`, independently of the flag's prior value and
of every other element of the vector. -/
theorem dev_flag_equals_index2_threshold :
    ∀ (dev : List ℚ) (st : SubcribeState), 3 ≤ dev.length →
      on_new_dev_data dev st =
        some { st with flag := decide (50 ≤ dev.getD 2 0) } := by
  intro dev st h
  rcases dev with _ | ⟨a, dev⟩; · simp at h
  rcases dev with _ | ⟨b, dev⟩; · simp at h
  rcases dev with _ | ⟨c, dev⟩; · simp at h
  simp [on_new_dev_data, updateFromDeviceSignal_eq]

/-- Witness for C10 at the device vector from the source's docstring,
`[4, 4, 4, 4, 4, 100]`, in the initial state. -/
theorem dev_flag_equals_index2_threshold_witness :
    on_new_dev_data [4, 4, 4, 4, 4, 100] initState =
      some { initState with
              flag := decide (50 ≤ ([4, 4, 4, 4, 4, 100] : List ℚ).getD 2 0) } :=
  dev_flag_equals_index2_threshold [4, 4, 4, 4, 4, 100] initState (by decide)

/-- C1 (counterexample): on the vector with 1.0 at index 5 and 0 elsewhere
the handler emits theta proportion 1 (first payload element), while the
claimed formula `(values[0] + values[15]) / sum(values)` evaluates to 0,
not 1. -/
theorem band_sites_counterexample :
    on_new_pow_data cexVec true =
      some ("/pow_proportion", [1, 0, 0, 0, 0, 1, 0]) ∧
    (cexVec.getD 0 0 + cexVec.getD 15 0) / cexVec.sum ≠ 1 := by
  constructor
  · norm_num [on_new_pow_data, cexVec]
  · norm_num [cexVec]

/-- C1 (amended): for every 25-element band-power vector with nonzero sum,
the emitted proportion of band `b` is `(values[b] + values[5 + b]) /
sum(values)` — the totals come from sites 0 and 1 of the fixed layout, not
sites 0 and 3. -/
theorem band_totals_from_sites_0_and_1 :
    ∀ (v : List ℚ), v.length = 25 → v.sum ≠ 0 →
      on_new_pow_data v true =
        some ("/pow_proportion",
          [bandProportion v 0, bandProportion v 1, bandProportion v 2,
           bandProportion v 3, bandProportion v 4,
           bandProportion v 0 + bandProportion v 1,
           bandProportion v 2 + bandProportion v 3 + bandProportion v 4]) :=
  fun v hlen hsum => on_new_pow_data_true_eq v (by omega) hsum

/-- Witness for C1 (amended) at the all-ones 25-element vector. -/
theorem band_totals_from_sites_0_and_1_witness :
    on_new_pow_data ones25 true =
      some ("/pow_proportion",
        [bandProportion ones25 0, bandProportion ones25 1,
         bandProportion ones25 2, bandProportion ones25 3,
         bandProportion ones25 4,
         bandProportion ones25 0 + bandProportion ones25 1,
         bandProportion ones25 2 + bandProportion ones25 3 +
           bandProportion ones25 4]) :=
  band_totals_from_sites_0_and_1 ones25 (by rfl) (by norm_num [ones25])

/-- C2: on a zero-sum band-power vector the handler raises
ZeroDivisionError out of the handler (`none`): it emits nothing, rather
than skipping gracefully or emitting zeros as the claim requires. -/
theorem zero_sum_raises_division_error :
    on_new_pow_data zeros25 true = none := by
  norm_num [on_new_pow_data, zeros25]

/-- C3 (counterexample): a band-power event received while the flag is
`false` does not always emit the zero vector: on the all-zero input the
handler raises (`none`) and emits nothing. -/
theorem disconnected_zero_emission_counterexample :
    on_new_pow_data zeros25 false = none := by
  norm_num [on_new_pow_data, zeros25]

/-- C3 (amended): for every band-power vector with at least 10 elements
and nonzero sum received while the flag is `false`, the handler emits
exactly `[0, 0, 0, 0, 0, 0, 0]` on the channel `'/pow_proportion'`,
regardless of the vector's values. -/
theorem disconnected_emits_seven_zeros :
    ∀ (v : List ℚ), 10 ≤ v.length → v.sum ≠ 0 →
      on_new_pow_data v false =
        some ("/pow_proportion", [0, 0, 0, 0, 0, 0, 0]) :=
  fun v hlen hsum => on_new_pow_data_false_eq v hlen hsum

/-- Witness for C3 (amended) at the all-ones 25-element vector. -/
theorem disconnected_emits_seven_zeros_witness :
    on_new_pow_data ones25 false =
      some ("/pow_proportion", [0, 0, 0, 0, 0, 0, 0]) :=
  disconnected_emits_seven_zeros ones25 (by norm_num [ones25])
    (by norm_num [ones25])

/-- C6: on every 25-element band-power vector with nonzero sum the emitted
payload has the shape `[t, a, bl, bh, g, t + a, bl + bh + g]` — meditation
is the theta plus alpha proportions and attention the sum of the three
remaining ones — and on the all-ones vector the emission is
`[0.08, 0.08, 0.08, 0.08, 0.08, 0.16, 0.24]`. -/
theorem composite_indices_meditation_attention :
    (∀ (v : List ℚ) (flag : Bool), v.length = 25 → v.sum ≠ 0 →
      ∃ t a bl bh g,
        on_new_pow_data v flag =
          some ("/pow_proportion", [t, a, bl, bh, g, t + a, bl + bh + g])) ∧
    on_new_pow_data ones25 true =
      some ("/pow_proportion",
        [0.08, 0.08, 0.08, 0.08, 0.08, 0.16, 0.24]) := by
  constructor
  · intro v flag hlen hsum
    cases flag
    · refine ⟨0, 0, 0, 0, 0, ?_⟩
      rw [on_new_pow_data_false_eq v (by omega) hsum]
      norm_num
    · exact ⟨bandProportion v 0, bandProportion v 1, bandProportion v 2,
        bandProportion v 3, bandProportion v 4,
        on_new_pow_data_true_eq v (by omega) hsum⟩
  · norm_num [on_new_pow_data, ones25]

/-- Witness for C6 at the all-ones 25-element vector with the flag set. -/
theorem composite_indices_meditation_attention_witness :
    ∃ t a bl bh g,
      on_new_pow_data ones25 true =
        some ("/pow_proportion", [t, a, bl, bh, g, t + a, bl + bh + g]) :=
  composite_indices_meditation_attention.1 ones25 true (by rfl)
    (by norm_num [ones25])

/-- C9: the emitted message depends only on the first ten elements of the
power vector, its total sum and the flag — two vectors agreeing on indices
below 10 and in total sum produce identical results — and a vector of
length exactly 10 with nonzero sum is processed without error. -/
theorem emission_depends_on_first_ten_and_sum :
    (∀ (v w : List ℚ) (flag : Bool),
        (∀ i, i < 10 → v.get? i = w.get? i) → v.sum = w.sum →
        on_new_pow_data v flag = on_new_pow_data w flag) ∧
    (∀ (v : List ℚ) (flag : Bool), v.length = 10 → v.sum ≠ 0 →
        (on_new_pow_data v flag).isSome = true) := by
  constructor
  · intro v w flag hag hsum
    by_cases hv : 10 ≤ v.length
    · obtain ⟨p0, p1, p2, p3, p4, p5, p6, p7, p8, p9, rest, rfl⟩ :=
        exists_cons10 v hv
      have h9 := hag 9 (by norm_num)
      simp only [List.get?] at h9
      have hw : 10 ≤ w.length := by
        by_contra hlt
        push_neg at hlt
        rw [List.get?_eq_none.mpr (by omega)] at h9
        simp at h9
      obtain ⟨q0, q1, q2, q3, q4, q5, q6, q7, q8, q9, restw, rfl⟩ :=
        exists_cons10 w hw
      have e0 := hag 0 (by norm_num); simp only [List.get?] at e0
      have e1 := hag 1 (by norm_num); simp only [List.get?] at e1
      have e2 := hag 2 (by norm_num); simp only [List.get?] at e2
      have e3 := hag 3 (by norm_num); simp only [List.get?] at e3
      have e4 := hag 4 (by norm_num); simp only [List.get?] at e4
      have e5 := hag 5 (by norm_num); simp only [List.get?] at e5
      have e6 := hag 6 (by norm_num); simp only [List.get?] at e6
      have e7 := hag 7 (by norm_num); simp only [List.get?] at e7
      have e8 := hag 8 (by norm_num); simp only [List.get?] at e8
      have e9 := hag 9 (by norm_num); simp only [List.get?] at e9
      simp only [Option.some.injEq] at e0 e1 e2 e3 e4 e5 e6 e7 e8 e9
      subst e0 e1 e2 e3 e4 e5 e6 e7 e8 e9
      simp only [on_new_pow_data, List.sum_cons] at hsum ⊢
      rw [hsum]
    · push_neg at hv
      have hw : w.length < 10 := by
        by_contra hge
        push_neg at hge
        have h9 := hag 9 (by norm_num)
        rw [List.get?_eq_none.mpr (by omega)] at h9
        obtain ⟨q0, q1, q2, q3, q4, q5, q6, q7, q8, q9, restw, rfl⟩ :=
          exists_cons10 w hge
        simp only [List.get?] at h9
        simp at h9
      rw [on_new_pow_data_short v hv flag, on_new_pow_data_short w hw flag]
  · intro v flag hlen hsum
    obtain ⟨p0, p1, p2, p3, p4, p5, p6, p7, p8, p9, rest, rfl⟩ :=
      exists_cons10 v (by omega)
    simp only [List.sum_cons] at hsum
    cases flag <;> simp [on_new_pow_data, hsum]

/-- Witness for C9: `ones25` and `ones10pad` agree on indices below 10 and
in total sum and produce the same emission; the length-10 all-ones vector
is processed without error. -/
theorem emission_depends_on_first_ten_and_sum_witness :
    on_new_pow_data ones25 true = on_new_pow_data ones10pad true ∧
    (on_new_pow_data tenOnes true).isSome = true :=
  ⟨emission_depends_on_first_ten_and_sum.1 ones25 ones10pad true
      (by intro i hi; interval_cases i <;> rfl)
      (by norm_num [ones25, ones10pad]),
    emission_depends_on_first_ten_and_sum.2 tenOnes true (by rfl)
      (by norm_num [tenOnes])⟩

/-- C5 (counterexample): recording labels for the stream kind `'eeg'` does
not make them readable afterwards — the handler stores labels only for
`'pow'` and `'met'`, so the round-trip fails for every other kind. -/
theorem label_roundtrip_counterexample :
    getLabels "eeg" (on_new_data_labels "eeg" ["COUNTER"] initState) ≠
      some ["COUNTER"] := by
  decide

/-- C5 (amended): the label round-trip holds exactly for the stream kinds
`'pow'` and `'met'`; for every other kind the handler accepts the event
but leaves the instance state unchanged, storing nothing. -/
theorem label_roundtrip_pow_met_only :
    (∀ (L : List String) (st : SubcribeState),
        getLabels "pow" (on_new_data_labels "pow" L st) = some L) ∧
    (∀ (L : List String) (st : SubcribeState),
        getLabels "met" (on_new_data_labels "met" L st) = some L) ∧
    (∀ (name : String) (L : List String) (st : SubcribeState),
        name ≠ "pow" → name ≠ "met" →
        on_new_data_labels name L st = st) := by
  refine ⟨?_, ?_, ?_⟩
  · intro L st
    simp [on_new_data_labels, getLabels]
  · intro L st
    simp [on_new_data_labels, getLabels]
  · intro name L st h1 h2
    simp [on_new_data_labels, h1, h2]

/-- Witness for C5 (amended) at the kinds `'pow'` and `'mot'`. -/
theorem label_roundtrip_pow_met_only_witness :
    getLabels "pow" (on_new_data_labels "pow" ["AF3/theta"] initState) =
      some ["AF3/theta"] ∧
    on_new_data_labels "mot" ["Q0"] initState = initState :=
  ⟨label_roundtrip_pow_met_only.1 ["AF3/theta"] initState,
    label_roundtrip_pow_met_only.2.2 "mot" ["Q0"] initState (by decide)
      (by decide)⟩

end EmotivArunav
